import Mathlib

/-!
A verification development for the payroll engine of `payrollx-server`.

Monetary values and JS numbers are embedded as exact rationals (`ℚ`);
`Math.round` is embedded as Mathlib's `round` (round half toward +∞,
`round x = ⌊x + 1/2⌋`), which agrees with JavaScript's `Math.round` on
all inputs considered here.  Decimal literals of the source
(`0.0075`, `2.5`, …) are written as the exact fractions they denote.
`Infinity` as a slab upper bound is embedded as `Option.none`.

Databases are embedded as explicit state: a payroll-run table
(`ℕ → Option PayrollRun`) plus a payslip list; SQL statements of
`processPayroll` become pure state transformations threaded through an
`Except` monad, with an injected fault oracle standing for a query
failing, and the `BEGIN`/`COMMIT`/`ROLLBACK` bracket of the source
becoming a wrapper that discards the transaction state on error.
-/

namespace Payroll

/-! ## Tax & deduction calculator (`src/utils/taxCalculator.js`) -/

structure TaxSlab where
  min : ℚ
  max : Option ℚ
  rate : ℚ
  fixed : ℚ
deriving DecidableEq

/-- FBR tax slabs for filers (`TAX_SLABS_FILER`). -/
def TAX_SLABS_FILER : List TaxSlab :=
  [⟨0, some 600000, 0, 0⟩,
   ⟨600001, some 1200000, 5/2, 0⟩,
   ⟨1200001, some 2200000, 25/2, 15000⟩,
   ⟨2200001, some 3200000, 45/2, 140000⟩,
   ⟨3200001, some 4100000, 55/2, 365000⟩,
   ⟨4100001, none, 35, 612500⟩]

/-- FBR tax slabs for non-filers (`TAX_SLABS_NON_FILER`). -/
def TAX_SLABS_NON_FILER : List TaxSlab :=
  [⟨0, some 600000, 0, 0⟩,
   ⟨600001, some 1200000, 11/4, 0⟩,
   ⟨1200001, some 2200000, 55/4, 16500⟩,
   ⟨2200001, some 3200000, 99/4, 154000⟩,
   ⟨3200001, some 4100000, 121/4, 401500⟩,
   ⟨4100001, none, 77/2, 673750⟩]

/-- The slab test `annualIncome >= slab.min && annualIncome <= slab.max`
(`Infinity` upper bound always passes). -/
def slabMatches (s : TaxSlab) (income : ℚ) : Bool :=
  decide (s.min ≤ income) &&
    (match s.max with
     | none => true
     | some m => decide (income ≤ m))

/-- The `for … break` slab search of `calculateAnnualTax`. -/
def findSlab : List TaxSlab → ℚ → Option TaxSlab
  | [], _ => none
  | s :: rest, income =>
      if slabMatches s income then some s else findSlab rest income

/-- Tax inside a slab: `slab.fixed + ((income - slab.min + 1) * slab.rate) / 100`
when `slab.rate > 0`, otherwise the loop leaves `tax = 0`. -/
def slabTax (s : TaxSlab) (income : ℚ) : ℚ :=
  if 0 < s.rate then s.fixed + (income - s.min + 1) * s.rate / 100 else 0

def slabsFor (isFiler : Bool) : List TaxSlab :=
  if isFiler then TAX_SLABS_FILER else TAX_SLABS_NON_FILER

/-- The unrounded `tax` accumulator of `calculateAnnualTax`
(0 when no slab matches or the matched slab has rate 0). -/
def annualTaxRaw (annualIncome : ℚ) (isFiler : Bool) : ℚ :=
  match findSlab (slabsFor isFiler) annualIncome with
  | some s => slabTax s annualIncome
  | none => 0

structure AnnualTaxResult where
  annualIncome : ℚ
  annualTax : ℤ
  monthlyTax : ℤ
  applicableSlab : Option TaxSlab
deriving DecidableEq

/-- `calculateAnnualTax`: note that `annualTax` is `Math.round(tax)` while
`monthlyTax` is `Math.round(tax / 12)`, both from the same unrounded `tax`. -/
def calculateAnnualTax (annualIncome : ℚ) (isFiler : Bool) : AnnualTaxResult :=
  let tax := annualTaxRaw annualIncome isFiler
  { annualIncome := annualIncome
    annualTax := round tax
    monthlyTax := round (tax / 12)
    applicableSlab := findSlab (slabsFor isFiler) annualIncome }

structure MonthlyTaxResult where
  monthlyGross : ℚ
  monthlyTax : ℤ
  annualProjection : ℤ
deriving DecidableEq

/-- `calculateMonthlyTax`: annualize then delegate to `calculateAnnualTax`. -/
def calculateMonthlyTax (monthlyGross : ℚ) (isFiler : Bool) : MonthlyTaxResult :=
  let result := calculateAnnualTax (monthlyGross * 12) isFiler
  { monthlyGross := monthlyGross
    monthlyTax := result.monthlyTax
    annualProjection := result.annualTax }

structure Contribution where
  employer : ℤ
  employee : ℤ
  total : ℤ
deriving DecidableEq

/-- `calculateEOBI`: employer `round(gross * 0.0075)`, employee `round(gross * 0.0015)`. -/
def calculateEOBI (grossSalary : ℚ) : Contribution :=
  let employerContribution := round (grossSalary * (75/10000 : ℚ))
  let employeeContribution := round (grossSalary * (15/10000 : ℚ))
  { employer := employerContribution
    employee := employeeContribution
    total := employerContribution + employeeContribution }

/-- `calculateSESSI`: `round(min(gross, 25000) * 0.0075)`, employer only. -/
def calculateSESSI (grossSalary : ℚ) : Contribution :=
  let applicableSalary := min grossSalary 25000
  let contribution := round (applicableSalary * (75/10000 : ℚ))
  { employer := contribution
    employee := 0
    total := contribution }

structure Deductions where
  incomeTax : ℚ
  eobi : ℚ
  sessi : ℚ
  loanDeduction : ℚ
  otherDeductions : ℚ
  totalDeductions : ℚ
  netSalary : ℚ
  eobiEmployer : ℚ
  sessiEmployer : ℚ
deriving DecidableEq

/-- `calculateAllDeductions`: composes monthly tax, EOBI employee share and
the two pass-through deductions; SESSI contributes nothing to the employee. -/
def calculateAllDeductions (grossSalary : ℚ) (isFiler : Bool)
    (loanDeduction : ℚ) (otherDeductions : ℚ) : Deductions :=
  let tax := calculateMonthlyTax grossSalary isFiler
  let eobi := calculateEOBI grossSalary
  let sessi := calculateSESSI grossSalary
  let totalDeductions : ℚ :=
    (tax.monthlyTax : ℚ) + (eobi.employee : ℚ) + loanDeduction + otherDeductions
  { incomeTax := (tax.monthlyTax : ℚ)
    eobi := (eobi.employee : ℚ)
    sessi := (sessi.employee : ℚ)
    loanDeduction := loanDeduction
    otherDeductions := otherDeductions
    totalDeductions := totalDeductions
    netSalary := grossSalary - totalDeductions
    eobiEmployer := (eobi.employer : ℚ)
    sessiEmployer := (sessi.employer : ℚ) }

/-- Sanity: the documented example value for monthly tax at gross 100000,
filer. -/
theorem monthlyTax_100000_filer : (calculateMonthlyTax 100000 true).monthlyTax = 1250 := by
  norm_num [calculateMonthlyTax, calculateAnnualTax, annualTaxRaw, slabsFor,
    findSlab, slabMatches, slabTax, TAX_SLABS_FILER, round_eq]

/-- Sanity: annual tax at the 600000 exemption boundary is zero. -/
theorem annualTax_600000_filer : (calculateAnnualTax 600000 true).annualTax = 0 := by
  norm_num [calculateAnnualTax, annualTaxRaw, slabsFor,
    findSlab, slabMatches, slabTax, TAX_SLABS_FILER, round_eq]

/-- Sanity: annual tax at 1200000 for a filer is 15000. -/
theorem annualTax_1200000_filer : (calculateAnnualTax 1200000 true).annualTax = 15000 := by
  norm_num [calculateAnnualTax, annualTaxRaw, slabsFor,
    findSlab, slabMatches, slabTax, TAX_SLABS_FILER, round_eq]

/-! ## Payroll service (`src/services/payroll.service.js`)

States and records mirror the `payroll_runs`, `payslips` and `attendance`
tables; ids are embedded as naturals.  A fault oracle (`ℕ → Bool`) says
whether the k-th write statement of the transaction aborts, standing for an
arbitrary persistence failure. -/

inductive RunStatus
  | draft
  | processing
  | completed
  | approved
  | paid
  | cancelled
deriving DecidableEq

inductive PayslipStatus
  | generated
  | approved
  | paid
  | cancelled
deriving DecidableEq

inductive AttStatus
  | present
  | absent
  | halfDay
  | late
  | onLeave
  | holiday
  | weekend
deriving DecidableEq

structure AttendanceRecord where
  status : AttStatus
  overtimeHours : Option ℚ
deriving DecidableEq

structure AttendanceSummary where
  presentDays : ℕ
  absentDays : ℕ
  leaveDays : ℕ
  overtimeHours : ℚ
deriving DecidableEq

/-- `getEmployeeAttendance`: the filtered counts and the overtime sum
(`COALESCE` maps a missing per-day value to 0; an empty record set yields
all-zero aggregates via the `parseInt(...) || 0` fallbacks). -/
def aggregateAttendance (records : List AttendanceRecord) : AttendanceSummary :=
  { presentDays := records.countP
      (fun r => decide (r.status = AttStatus.present ∨ r.status = AttStatus.late))
    absentDays := records.countP (fun r => decide (r.status = AttStatus.absent))
    leaveDays := records.countP (fun r => decide (r.status = AttStatus.onLeave))
    overtimeHours := (records.map (fun r => r.overtimeHours.getD 0)).sum }

/-- One row of the active-employees-with-current-salary-structure query. -/
structure EmployeeRow where
  employeeId : ℕ
  taxFilingStatus : String
  grossSalary : ℚ
  loanDeduction : ℚ
  otherDeductions : ℚ
deriving DecidableEq

structure PayrollRun where
  id : ℕ
  month : ℕ
  year : ℕ
  status : RunStatus
  totalEmployees : ℕ
  totalGrossSalary : ℚ
  totalDeductions : ℚ
  totalTax : ℚ
  totalNetSalary : ℚ
  processedBy : Option ℕ
  approvedBy : Option ℕ
deriving DecidableEq

structure Payslip where
  payrollRunId : ℕ
  employeeId : ℕ
  month : ℕ
  year : ℕ
  workingDays : ℕ
  presentDays : ℕ
  absentDays : ℕ
  leaveDays : ℕ
  overtimeHours : ℚ
  overtimePay : ℚ
  grossSalary : ℚ
  incomeTax : ℚ
  eobiContribution : ℚ
  sessiContribution : ℚ
  loanDeduction : ℚ
  otherDeductions : ℚ
  totalDeductions : ℚ
  netSalary : ℚ
  taxableIncome : ℚ
  isFiler : Bool
  status : PayslipStatus
deriving DecidableEq

/-- The per-employee body of the `processPayroll` loop: deductions are
computed from the structure's gross, overtime pay is
`Math.round(overtimeHours * (gross / (workingDays * 8)) * 1.5)`, the stored
gross is `gross + overtimePay` and net is that final gross minus the
deduction total. -/
def makePayslip (payrollRunId month year workingDays : ℕ) (emp : EmployeeRow)
    (att : AttendanceSummary) : Payslip :=
  let isFiler : Bool := decide (emp.taxFilingStatus = "filer")
  let deductions :=
    calculateAllDeductions emp.grossSalary isFiler emp.loanDeduction emp.otherDeductions
  let hourlyRate : ℚ := emp.grossSalary / ((workingDays : ℚ) * 8)
  let overtimePay : ℚ := (round (att.overtimeHours * hourlyRate * (3/2)) : ℤ)
  let finalGross : ℚ := emp.grossSalary + overtimePay
  let netSalary : ℚ := finalGross - deductions.totalDeductions
  { payrollRunId := payrollRunId
    employeeId := emp.employeeId
    month := month
    year := year
    workingDays := workingDays
    presentDays := att.presentDays
    absentDays := att.absentDays
    leaveDays := att.leaveDays
    overtimeHours := att.overtimeHours
    overtimePay := overtimePay
    grossSalary := finalGross
    incomeTax := deductions.incomeTax
    eobiContribution := deductions.eobi
    sessiContribution := deductions.sessi
    loanDeduction := deductions.loanDeduction
    otherDeductions := deductions.otherDeductions
    totalDeductions := deductions.totalDeductions
    netSalary := netSalary
    taxableIncome := emp.grossSalary * 12
    isFiler := isFiler
    status := PayslipStatus.generated }

/-- Read-only collaborators of the run: the active-employee query result,
the per-employee attendance rows for a month/year, and the
working-day resolution (`calculateWorkingDays`, abstracted as a function of
the period since the claims treat its value as an input). -/
structure Env where
  employees : List EmployeeRow
  attendance : ℕ → ℕ → ℕ → List AttendanceRecord
  workingDaysOf : ℕ → ℕ → ℕ

inductive DbErr
  | notFound (msg : String)
  | badRequest (msg : String)
  | dbFailure
deriving DecidableEq

/-- The visible database state: the `payroll_runs` table keyed by id and the
`payslips` table. -/
structure DBState where
  runs : ℕ → Option PayrollRun
  payslips : List Payslip

def setRun (st : DBState) (runId : ℕ) (r : PayrollRun) : DBState :=
  { st with runs := fun i => if i = runId then some r else st.runs i }

def genPayslip (env : Env) (payrollRunId month year workingDays : ℕ)
    (emp : EmployeeRow) : Payslip :=
  makePayslip payrollRunId month year workingDays emp
    (aggregateAttendance (env.attendance emp.employeeId month year))

/-- The payslip-insertion loop; `k` numbers the write statements so the
fault oracle can abort any individual insert. -/
def insertPayslips (env : Env) (oracle : ℕ → Bool)
    (payrollRunId month year workingDays : ℕ) :
    List EmployeeRow → ℕ → Except DbErr (List Payslip)
  | [], _ => Except.ok []
  | emp :: rest, k =>
    if oracle k then Except.error DbErr.dbFailure
    else
      match insertPayslips env oracle payrollRunId month year workingDays rest (k + 1) with
      | Except.error e => Except.error e
      | Except.ok ps =>
          Except.ok (genPayslip env payrollRunId month year workingDays emp :: ps)

/-- The body of `processPayroll` between `BEGIN` and `COMMIT`: guard on
`draft`, flip to `processing`, resolve working days, delete this run's
payslips, insert one payslip per employee, then store totals and
`completed`.  Any failure is surfaced as `Except.error`. -/
def processTx (env : Env) (oracle : ℕ → Bool) (st : DBState)
    (payrollRunId processedBy : ℕ) : Except DbErr DBState :=
  match st.runs payrollRunId with
  | none => Except.error (DbErr.notFound "Payroll run not found")
  | some payrollRun =>
    if payrollRun.status = RunStatus.draft then
      if oracle 0 then Except.error DbErr.dbFailure
      else
        let st0 := setRun st payrollRunId { payrollRun with status := RunStatus.processing }
        let workingDays := env.workingDaysOf payrollRun.month payrollRun.year
        if oracle 1 then Except.error DbErr.dbFailure
        else
          let st1 := { st0 with
            payslips := st0.payslips.filter (fun p => decide (p.payrollRunId ≠ payrollRunId)) }
          match insertPayslips env oracle payrollRunId payrollRun.month payrollRun.year
              workingDays env.employees 2 with
          | Except.error e => Except.error e
          | Except.ok newPayslips =>
            if oracle (2 + env.employees.length) then Except.error DbErr.dbFailure
            else
              let totalGross := (newPayslips.map Payslip.grossSalary).sum
              let totalDeductionsSum := (newPayslips.map Payslip.totalDeductions).sum
              let totalTax := (newPayslips.map Payslip.incomeTax).sum
              let totalNet := (newPayslips.map Payslip.netSalary).sum
              Except.ok (setRun { st1 with payslips := st1.payslips ++ newPayslips }
                payrollRunId
                { payrollRun with
                    status := RunStatus.completed
                    totalEmployees := env.employees.length
                    totalGrossSalary := totalGross
                    totalDeductions := totalDeductionsSum
                    totalTax := totalTax
                    totalNetSalary := totalNet
                    processedBy := some processedBy })
    else Except.error (DbErr.badRequest "Only draft payroll runs can be processed")

/-- `processPayroll` as seen by the caller: commit the transaction state on
success, keep the pre-call state and surface the error on failure (the
`catch` branch issues `ROLLBACK` and rethrows). -/
def processPayroll (env : Env) (oracle : ℕ → Bool) (st : DBState)
    (payrollRunId processedBy : ℕ) : DBState × Option DbErr :=
  match processTx env oracle st payrollRunId processedBy with
  | Except.ok st' => (st', none)
  | Except.error e => (st, some e)

/-- `approvePayroll`: guard on `completed`, set the run to `approved` and
cascade every payslip of the run to `approved`. -/
def approvePayroll (st : DBState) (payrollRunId approvedBy : ℕ) :
    DBState × Option DbErr :=
  match st.runs payrollRunId with
  | none => (st, some (DbErr.notFound "Payroll run not found"))
  | some payrollRun =>
    if payrollRun.status = RunStatus.completed then
      (setRun
        { st with payslips := st.payslips.map (fun p =>
            if p.payrollRunId = payrollRunId
            then { p with status := PayslipStatus.approved } else p) }
        payrollRunId
        { payrollRun with status := RunStatus.approved, approvedBy := some approvedBy },
       none)
    else (st, some (DbErr.badRequest "Only completed payroll runs can be approved"))

/-- The oracle under which every write statement succeeds. -/
def noFault : ℕ → Bool := fun _ => false

/-- A manual reset of a run back to `draft` (the spec's precondition for a
second `process()` call on an already completed run). -/
def resetRunToDraft (st : DBState) (runId : ℕ) : DBState :=
  { st with runs := fun i =>
      if i = runId
      then (st.runs i).map (fun r => { r with status := RunStatus.draft })
      else st.runs i }

/-- The payslip rows of one run, as a payslip query for that run returns them. -/
def payslipsFor (st : DBState) (runId : ℕ) : List Payslip :=
  st.payslips.filter (fun p => decide (p.payrollRunId = runId))

/-! ## Compute-tax preview (`payroll.routes.js` + `payroll.controller.js`) -/

/-- The express-validator chain of `POST /payroll/calculate-tax`:
`grossSalary` must be a float with minimum 0, otherwise `handleValidation`
throws `BadRequestError('Validation failed')` before the controller runs. -/
def validateCalculateTax (grossSalary : ℚ) : Except DbErr Unit :=
  if grossSalary < 0 then Except.error (DbErr.badRequest "Validation failed")
  else Except.ok ()

/-- Route validation then the `calculateTax` controller, which calls
`calculateAllDeductions(grossSalary, isFiler === true)` with no additional
deductions. -/
def calculateTaxEndpoint (grossSalary : ℚ) (isFiler : Bool) :
    Except DbErr Deductions :=
  match validateCalculateTax grossSalary with
  | Except.error e => Except.error e
  | Except.ok _ => Except.ok (calculateAllDeductions grossSalary isFiler 0 0)

/-! ## Helper lemmas -/

theorem round_mono_rat {x y : ℚ} (h : x ≤ y) : round x ≤ round y := by
  rw [round_eq, round_eq]
  exact Int.floor_le_floor (by linarith)

/-! ## Claim C2 -/

/-- Claim C2 counterexample: at monthly gross 50019 (filer) the unrounded
annual tax is 5.7, so the calculator returns `round(5.7 / 12) = 0`, while
rounding the annual figure first gives `round(round(5.7) / 12) =
round(6 / 12) = 1`.  The claimed rounding order (annual figure rounded
before the division) disagrees with the code at this input. -/
theorem C2_counterexample :
    (calculateMonthlyTax 50019 true).monthlyTax = 0 ∧
    round (((calculateAnnualTax (50019 * 12) true).annualTax : ℚ) / 12) = 1 ∧
    (calculateMonthlyTax 50019 true).monthlyTax ≠
      round (((calculateAnnualTax (50019 * 12) true).annualTax : ℚ) / 12) := by
  have h1 : (calculateMonthlyTax 50019 true).monthlyTax = 0 := by
    norm_num [calculateMonthlyTax, calculateAnnualTax, annualTaxRaw, slabsFor,
      findSlab, slabMatches, slabTax, TAX_SLABS_FILER, round_eq]
  have h2 : round (((calculateAnnualTax (50019 * 12) true).annualTax : ℚ) / 12) = 1 := by
    norm_num [calculateAnnualTax, annualTaxRaw, slabsFor,
      findSlab, slabMatches, slabTax, TAX_SLABS_FILER, round_eq]
  exact ⟨h1, h2, by rw [h1, h2]; decide⟩

/-- Claim C2 (amended): for every monthly gross and filer flag the returned
monthly tax is `round(annualTaxRaw(g * 12) / 12)` — the division is applied
to the *unrounded* annual tax and the quotient rounded once; the annual
figure reported alongside is rounded separately from the same unrounded
value. -/
theorem C2_monthly_tax_rounding (g : ℚ) (f : Bool) :
    (calculateMonthlyTax g f).monthlyTax = round (annualTaxRaw (g * 12) f / 12) ∧
    (calculateMonthlyTax g f).annualProjection = round (annualTaxRaw (g * 12) f) :=
  ⟨rfl, rfl⟩

/-! ## Claim C6 -/

/-- Claim C6 counterexample: at gross 100000 the uncapped (EOBI)
contribution totals 900 = 0.90% of gross, not 0.75%: the employer share is
an independent `round(gross * 0.0075) = 750` rather than the residual 600,
so the claimed total 0.75% of gross fails. -/
theorem C6_counterexample :
    (calculateEOBI 100000).employer = 750 ∧
    (calculateEOBI 100000).employee = 150 ∧
    (calculateEOBI 100000).total = 900 ∧
    round ((100000 : ℚ) * (75/10000)) = 750 ∧
    (calculateEOBI 100000).total ≠ round ((100000 : ℚ) * (75/10000)) := by
  refine ⟨?_, ?_, ?_, ?_, ?_⟩ <;>
    norm_num [calculateEOBI, round_eq]

/-- Claim C6 (amended): for every gross `g ≥ 0` the uncapped statutory
contribution has employee share `round(g * 0.0015)` and an *independent*
employer share `round(g * 0.0075)` (so the total is their sum, about 0.90%
of gross, not 0.75% split); the capped statutory contribution is
`round(min(g, 25000) * 0.0075)`, entirely employer-borne with a zero
employee share. -/
theorem C6_statutory_contributions (g : ℚ) (hg : 0 ≤ g) :
    (calculateEOBI g).employee = round (g * (15/10000)) ∧
    (calculateEOBI g).employer = round (g * (75/10000)) ∧
    (calculateEOBI g).total = round (g * (75/10000)) + round (g * (15/10000)) ∧
    (calculateSESSI g).employer = round (min g 25000 * (75/10000)) ∧
    (calculateSESSI g).employee = 0 ∧
    (calculateSESSI g).total = (calculateSESSI g).employer :=
  ⟨rfl, rfl, rfl, rfl, rfl, rfl⟩

/-- Witness for C6 at gross 100000. -/
theorem C6_witness :
    (0 : ℚ) ≤ 100000 ∧
    ((calculateEOBI 100000).employee = round ((100000 : ℚ) * (15/10000)) ∧
     (calculateEOBI 100000).employer = round ((100000 : ℚ) * (75/10000)) ∧
     (calculateEOBI 100000).total
       = round ((100000 : ℚ) * (75/10000)) + round ((100000 : ℚ) * (15/10000)) ∧
     (calculateSESSI 100000).employer = round (min (100000 : ℚ) 25000 * (75/10000)) ∧
     (calculateSESSI 100000).employee = 0 ∧
     (calculateSESSI 100000).total = (calculateSESSI 100000).employer) :=
  ⟨by norm_num, C6_statutory_contributions 100000 (by norm_num)⟩

/-! ## Claim C9 -/

/-- Claim C9: the compute-tax preview rejects every negative gross salary
with the validation error before the deduction calculator is invoked — the
endpoint returns the validation failure, never a deduction breakdown. -/
theorem C9_negative_gross_rejected (g : ℚ) (f : Bool) (hg : g < 0) :
    calculateTaxEndpoint g f = Except.error (DbErr.badRequest "Validation failed") := by
  simp [calculateTaxEndpoint, validateCalculateTax, hg]

/-- Witness for C9 at gross -1. -/
theorem C9_witness :
    (-1 : ℚ) < 0 ∧
    calculateTaxEndpoint (-1) true
      = Except.error (DbErr.badRequest "Validation failed") :=
  ⟨by norm_num, C9_negative_gross_rejected (-1) true (by norm_num)⟩

/-! ## Claim C7 -/

/-- Claim C7 counterexample: the bracket schedules are not exhaustive over
all incomes ≥ 0 — at income 600000.5 (= 1200001/2) no bracket of either
schedule satisfies min ≤ income ≤ max, because the boundaries jump from
600000 to 600001; `calculateAnnualTax` falls through with no applicable
slab (and tax 0) instead of selecting a bracket. -/
theorem C7_counterexample :
    (0 : ℚ) ≤ 1200001/2 ∧
    TAX_SLABS_FILER.countP (fun s => slabMatches s (1200001/2)) = 0 ∧
    TAX_SLABS_NON_FILER.countP (fun s => slabMatches s (1200001/2)) = 0 ∧
    (calculateAnnualTax (1200001/2) true).applicableSlab = none ∧
    (calculateAnnualTax (1200001/2) true).annualTax = 0 := by
  refine ⟨by norm_num, ?_, ?_, ?_, ?_⟩ <;>
    norm_num [TAX_SLABS_FILER, TAX_SLABS_NON_FILER, List.countP_cons, List.countP_nil,
      slabMatches, calculateAnnualTax, annualTaxRaw, slabsFor, findSlab, slabTax, round_eq]

/-- Claim C7 (amended): restricted to whole-rupee incomes the schedules are
contiguous and exhaustive — for every natural-number income exactly one
bracket of each schedule satisfies min ≤ income ≤ max. -/
theorem C7_integer_exhaustive (n : ℕ) :
    TAX_SLABS_FILER.countP (fun s => slabMatches s (n : ℚ)) = 1 ∧
    TAX_SLABS_NON_FILER.countP (fun s => slabMatches s (n : ℚ)) = 1 := by
  have h0 : (0 : ℚ) ≤ (n : ℚ) := Nat.cast_nonneg n
  have f1 : ((n : ℚ) ≤ 600000) ↔ (n ≤ 600000) := by exact_mod_cast Iff.rfl
  have f2 : ((600001 : ℚ) ≤ (n : ℚ)) ↔ (600001 ≤ n) := by exact_mod_cast Iff.rfl
  have f3 : ((n : ℚ) ≤ 1200000) ↔ (n ≤ 1200000) := by exact_mod_cast Iff.rfl
  have f4 : ((1200001 : ℚ) ≤ (n : ℚ)) ↔ (1200001 ≤ n) := by exact_mod_cast Iff.rfl
  have f5 : ((n : ℚ) ≤ 2200000) ↔ (n ≤ 2200000) := by exact_mod_cast Iff.rfl
  have f6 : ((2200001 : ℚ) ≤ (n : ℚ)) ↔ (2200001 ≤ n) := by exact_mod_cast Iff.rfl
  have f7 : ((n : ℚ) ≤ 3200000) ↔ (n ≤ 3200000) := by exact_mod_cast Iff.rfl
  have f8 : ((3200001 : ℚ) ≤ (n : ℚ)) ↔ (3200001 ≤ n) := by exact_mod_cast Iff.rfl
  have f9 : ((n : ℚ) ≤ 4100000) ↔ (n ≤ 4100000) := by exact_mod_cast Iff.rfl
  have f10 : ((4100001 : ℚ) ≤ (n : ℚ)) ↔ (4100001 ≤ n) := by exact_mod_cast Iff.rfl
  constructor <;>
  · simp only [TAX_SLABS_FILER, TAX_SLABS_NON_FILER, List.countP_cons, List.countP_nil,
      slabMatches, Bool.and_eq_true, Bool.and_true, decide_eq_true_eq,
      f1, f2, f3, f4, f5, f6, f7, f8, f9, f10, h0, true_and, and_true]
    split_ifs <;> omega

/-! ## Claim C8 -/

/-- Claim C8: for every annual income strictly above 600000, the filer
annual tax is at most the non-filer annual tax — choosing non-filer status
is never cheaper. -/
theorem C8_filer_never_more (i : ℚ) (h : 600000 < i) :
    (calculateAnnualTax i true).annualTax ≤ (calculateAnnualTax i false).annualTax := by
  have hn1 : ¬ (i ≤ (600000 : ℚ)) := not_le.mpr h
  have key : annualTaxRaw i true ≤ annualTaxRaw i false := by
    rcases lt_or_le i 600001 with h1 | h1
    · have g2 : ¬ ((600001 : ℚ) ≤ i) := not_le.mpr h1
      have g3 : ¬ ((1200001 : ℚ) ≤ i) := by intro hh; linarith
      have g4 : ¬ ((2200001 : ℚ) ≤ i) := by intro hh; linarith
      have g5 : ¬ ((3200001 : ℚ) ≤ i) := by intro hh; linarith
      have g6 : ¬ ((4100001 : ℚ) ≤ i) := by intro hh; linarith
      norm_num [annualTaxRaw, slabsFor, findSlab, slabMatches, slabTax, TAX_SLABS_FILER,
        TAX_SLABS_NON_FILER, Bool.and_eq_true, decide_eq_true_eq, hn1, g2, g3, g4, g5, g6]
    · rcases le_or_lt i 1200000 with h2 | h2
      · norm_num [annualTaxRaw, slabsFor, findSlab, slabMatches, slabTax, TAX_SLABS_FILER,
          TAX_SLABS_NON_FILER, Bool.and_eq_true, decide_eq_true_eq, hn1, h1, h2]
        linarith
      · have n2 : ¬ (i ≤ (1200000 : ℚ)) := not_le.mpr h2
        rcases lt_or_le i 1200001 with h3 | h3
        · have g4 : ¬ ((1200001 : ℚ) ≤ i) := not_le.mpr h3
          have g5 : ¬ ((2200001 : ℚ) ≤ i) := by intro hh; linarith
          have g6 : ¬ ((3200001 : ℚ) ≤ i) := by intro hh; linarith
          have g7 : ¬ ((4100001 : ℚ) ≤ i) := by intro hh; linarith
          norm_num [annualTaxRaw, slabsFor, findSlab, slabMatches, slabTax, TAX_SLABS_FILER,
            TAX_SLABS_NON_FILER, Bool.and_eq_true, decide_eq_true_eq, hn1, n2, g4, g5, g6, g7]
        · rcases le_or_lt i 2200000 with h4 | h4
          · norm_num [annualTaxRaw, slabsFor, findSlab, slabMatches, slabTax, TAX_SLABS_FILER,
              TAX_SLABS_NON_FILER, Bool.and_eq_true, decide_eq_true_eq, hn1, n2, h3, h4]
            linarith
          · have n3 : ¬ (i ≤ (2200000 : ℚ)) := not_le.mpr h4
            rcases lt_or_le i 2200001 with h5 | h5
            · have g6 : ¬ ((2200001 : ℚ) ≤ i) := not_le.mpr h5
              have g7 : ¬ ((3200001 : ℚ) ≤ i) := by intro hh; linarith
              have g8 : ¬ ((4100001 : ℚ) ≤ i) := by intro hh; linarith
              norm_num [annualTaxRaw, slabsFor, findSlab, slabMatches, slabTax, TAX_SLABS_FILER,
                TAX_SLABS_NON_FILER, Bool.and_eq_true, decide_eq_true_eq, hn1, n2, n3, g6, g7, g8]
            · rcases le_or_lt i 3200000 with h6 | h6
              · norm_num [annualTaxRaw, slabsFor, findSlab, slabMatches, slabTax, TAX_SLABS_FILER,
                  TAX_SLABS_NON_FILER, Bool.and_eq_true, decide_eq_true_eq, hn1, n2, n3, h5, h6]
                linarith
              · have n4 : ¬ (i ≤ (3200000 : ℚ)) := not_le.mpr h6
                rcases lt_or_le i 3200001 with h7 | h7
                · have g8 : ¬ ((3200001 : ℚ) ≤ i) := not_le.mpr h7
                  have g9 : ¬ ((4100001 : ℚ) ≤ i) := by intro hh; linarith
                  norm_num [annualTaxRaw, slabsFor, findSlab, slabMatches, slabTax, TAX_SLABS_FILER,
                    TAX_SLABS_NON_FILER, Bool.and_eq_true, decide_eq_true_eq, hn1, n2, n3, n4, g8, g9]
                · rcases le_or_lt i 4100000 with h8 | h8
                  · norm_num [annualTaxRaw, slabsFor, findSlab, slabMatches, slabTax, TAX_SLABS_FILER,
                      TAX_SLABS_NON_FILER, Bool.and_eq_true, decide_eq_true_eq, hn1, n2, n3, n4, h7, h8]
                    linarith
                  · have n5 : ¬ (i ≤ (4100000 : ℚ)) := not_le.mpr h8
                    rcases lt_or_le i 4100001 with h9 | h9
                    · have g10 : ¬ ((4100001 : ℚ) ≤ i) := not_le.mpr h9
                      norm_num [annualTaxRaw, slabsFor, findSlab, slabMatches, slabTax,
                        TAX_SLABS_FILER, TAX_SLABS_NON_FILER, Bool.and_eq_true,
                        decide_eq_true_eq, hn1, n2, n3, n4, n5, g10]
                    · norm_num [annualTaxRaw, slabsFor, findSlab, slabMatches, slabTax,
                        TAX_SLABS_FILER, TAX_SLABS_NON_FILER, Bool.and_eq_true,
                        decide_eq_true_eq, hn1, n2, n3, n4, n5, h9]
                      linarith
  have hr := round_mono_rat key
  simpa [calculateAnnualTax] using hr

/-- Witness for C8 at annual income 1000000. -/
theorem C8_witness :
    (600000 : ℚ) < 1000000 ∧
    (calculateAnnualTax 1000000 true).annualTax
      ≤ (calculateAnnualTax 1000000 false).annualTax :=
  ⟨by norm_num, C8_filer_never_more 1000000 (by norm_num)⟩

/-! ## Claim C1 -/

/-- The worker of the end-to-end scenario: gross 150000, filer, no loan or
other deductions. -/
def emp150k : EmployeeRow := ⟨1, "filer", 150000, 0, 0⟩

/-- The attendance summary of the end-to-end scenario: 21 present days,
10 overtime hours. -/
def att10ot : AttendanceSummary := ⟨21, 0, 0, 10⟩

/-- Claim C1 counterexample: in the end-to-end scenario (gross 150000,
filer, 21 working days, 10 overtime hours) the payslip's income tax is
7500 — the deduction calculator's output on the *base* gross 150000 — while
the calculator applied to the overtime-inclusive gross 163393 returns 9174.
The payslip's deductions are not the calculator's output on the final
gross, and net is 155668, not 163393 − 9419 = 153974. -/
theorem C1_counterexample :
    (makePayslip 1 6 2025 21 emp150k att10ot).grossSalary = 163393 ∧
    (makePayslip 1 6 2025 21 emp150k att10ot).incomeTax = 7500 ∧
    (makePayslip 1 6 2025 21 emp150k att10ot).totalDeductions = 7725 ∧
    (makePayslip 1 6 2025 21 emp150k att10ot).netSalary = 155668 ∧
    (calculateAllDeductions 163393 true 0 0).incomeTax = 9174 ∧
    (makePayslip 1 6 2025 21 emp150k att10ot).incomeTax
      ≠ (calculateAllDeductions (makePayslip 1 6 2025 21 emp150k att10ot).grossSalary
          true 0 0).incomeTax := by
  have hg : (makePayslip 1 6 2025 21 emp150k att10ot).grossSalary = 163393 := by
    norm_num [makePayslip, emp150k, att10ot, calculateAllDeductions, calculateMonthlyTax,
      calculateAnnualTax, annualTaxRaw, slabsFor, findSlab, slabMatches, slabTax,
      TAX_SLABS_FILER, calculateEOBI, calculateSESSI, round_eq]
  have ht : (makePayslip 1 6 2025 21 emp150k att10ot).incomeTax = 7500 := by
    norm_num [makePayslip, emp150k, att10ot, calculateAllDeductions, calculateMonthlyTax,
      calculateAnnualTax, annualTaxRaw, slabsFor, findSlab, slabMatches, slabTax,
      TAX_SLABS_FILER, calculateEOBI, calculateSESSI, round_eq]
  have htd : (makePayslip 1 6 2025 21 emp150k att10ot).totalDeductions = 7725 := by
    norm_num [makePayslip, emp150k, att10ot, calculateAllDeductions, calculateMonthlyTax,
      calculateAnnualTax, annualTaxRaw, slabsFor, findSlab, slabMatches, slabTax,
      TAX_SLABS_FILER, calculateEOBI, calculateSESSI, round_eq]
  have hn : (makePayslip 1 6 2025 21 emp150k att10ot).netSalary = 155668 := by
    norm_num [makePayslip, emp150k, att10ot, calculateAllDeductions, calculateMonthlyTax,
      calculateAnnualTax, annualTaxRaw, slabsFor, findSlab, slabMatches, slabTax,
      TAX_SLABS_FILER, calculateEOBI, calculateSESSI, round_eq]
  have hc : (calculateAllDeductions 163393 true 0 0).incomeTax = 9174 := by
    norm_num [calculateAllDeductions, calculateMonthlyTax, calculateAnnualTax, annualTaxRaw,
      slabsFor, findSlab, slabMatches, slabTax, TAX_SLABS_FILER, calculateEOBI,
      calculateSESSI, round_eq]
  refine ⟨hg, ht, htd, hn, hc, ?_⟩
  rw [hg, ht, hc]
  norm_num

/-- Claim C1 (amended): in `process()` the deduction calculator is applied
to the worker's *pre-overtime* gross: the payslip's income tax, statutory
employee share and total deductions equal the calculator's output on the
salary structure's gross, overtime pay is
`round(overtimeHours × (gross / (workingDays × 8)) × 1.5)`, the stored
gross is base gross plus overtime pay, and net is that final gross minus
the deduction total computed on the base gross. -/
theorem C1_deductions_on_base_gross (payrollRunId month year workingDays : ℕ)
    (hwd : 0 < workingDays) (emp : EmployeeRow) (att : AttendanceSummary) :
    (makePayslip payrollRunId month year workingDays emp att).incomeTax
      = (calculateAllDeductions emp.grossSalary (decide (emp.taxFilingStatus = "filer"))
          emp.loanDeduction emp.otherDeductions).incomeTax ∧
    (makePayslip payrollRunId month year workingDays emp att).eobiContribution
      = (calculateAllDeductions emp.grossSalary (decide (emp.taxFilingStatus = "filer"))
          emp.loanDeduction emp.otherDeductions).eobi ∧
    (makePayslip payrollRunId month year workingDays emp att).totalDeductions
      = (calculateAllDeductions emp.grossSalary (decide (emp.taxFilingStatus = "filer"))
          emp.loanDeduction emp.otherDeductions).totalDeductions ∧
    (makePayslip payrollRunId month year workingDays emp att).overtimePay
      = ((round (att.overtimeHours * (emp.grossSalary / ((workingDays : ℚ) * 8)) * (3/2)) : ℤ) : ℚ) ∧
    (makePayslip payrollRunId month year workingDays emp att).grossSalary
      = emp.grossSalary + (makePayslip payrollRunId month year workingDays emp att).overtimePay ∧
    (makePayslip payrollRunId month year workingDays emp att).netSalary
      = (makePayslip payrollRunId month year workingDays emp att).grossSalary
        - (makePayslip payrollRunId month year workingDays emp att).totalDeductions :=
  ⟨rfl, rfl, rfl, rfl, rfl, rfl⟩

/-- Witness for C1 at the end-to-end scenario input. -/
theorem C1_witness :
    0 < 21 ∧
    ((makePayslip 1 6 2025 21 emp150k att10ot).incomeTax
       = (calculateAllDeductions emp150k.grossSalary
           (decide (emp150k.taxFilingStatus = "filer"))
           emp150k.loanDeduction emp150k.otherDeductions).incomeTax ∧
     (makePayslip 1 6 2025 21 emp150k att10ot).eobiContribution
       = (calculateAllDeductions emp150k.grossSalary
           (decide (emp150k.taxFilingStatus = "filer"))
           emp150k.loanDeduction emp150k.otherDeductions).eobi ∧
     (makePayslip 1 6 2025 21 emp150k att10ot).totalDeductions
       = (calculateAllDeductions emp150k.grossSalary
           (decide (emp150k.taxFilingStatus = "filer"))
           emp150k.loanDeduction emp150k.otherDeductions).totalDeductions ∧
     (makePayslip 1 6 2025 21 emp150k att10ot).overtimePay
       = ((round (att10ot.overtimeHours * (emp150k.grossSalary / ((21 : ℚ) * 8)) * (3/2)) : ℤ) : ℚ) ∧
     (makePayslip 1 6 2025 21 emp150k att10ot).grossSalary
       = emp150k.grossSalary + (makePayslip 1 6 2025 21 emp150k att10ot).overtimePay ∧
     (makePayslip 1 6 2025 21 emp150k att10ot).netSalary
       = (makePayslip 1 6 2025 21 emp150k att10ot).grossSalary
         - (makePayslip 1 6 2025 21 emp150k att10ot).totalDeductions) :=
  ⟨by norm_num, C1_deductions_on_base_gross 1 6 2025 21 (by norm_num) emp150k att10ot⟩

/-! ## Claim C10 -/

/-- Claim C10: a payslip's monetary fields are independent of the
present/absent/leave statuses of the attendance records — any two record
lists with the same per-day overtime hours yield the same gross,
deductions, overtime pay and net — and a worker with no attendance records
at all still gets a payslip at the full structure gross with zero overtime
pay. -/
theorem C10_attendance_independent (payrollRunId month year workingDays : ℕ)
    (hwd : 0 < workingDays) (emp : EmployeeRow)
    (recs1 recs2 : List AttendanceRecord)
    (hot : recs1.map (fun r => r.overtimeHours.getD 0)
         = recs2.map (fun r => r.overtimeHours.getD 0)) :
    ((makePayslip payrollRunId month year workingDays emp (aggregateAttendance recs1)).grossSalary
       = (makePayslip payrollRunId month year workingDays emp (aggregateAttendance recs2)).grossSalary ∧
     (makePayslip payrollRunId month year workingDays emp (aggregateAttendance recs1)).incomeTax
       = (makePayslip payrollRunId month year workingDays emp (aggregateAttendance recs2)).incomeTax ∧
     (makePayslip payrollRunId month year workingDays emp (aggregateAttendance recs1)).eobiContribution
       = (makePayslip payrollRunId month year workingDays emp (aggregateAttendance recs2)).eobiContribution ∧
     (makePayslip payrollRunId month year workingDays emp (aggregateAttendance recs1)).totalDeductions
       = (makePayslip payrollRunId month year workingDays emp (aggregateAttendance recs2)).totalDeductions ∧
     (makePayslip payrollRunId month year workingDays emp (aggregateAttendance recs1)).overtimePay
       = (makePayslip payrollRunId month year workingDays emp (aggregateAttendance recs2)).overtimePay ∧
     (makePayslip payrollRunId month year workingDays emp (aggregateAttendance recs1)).netSalary
       = (makePayslip payrollRunId month year workingDays emp (aggregateAttendance recs2)).netSalary) ∧
    ((makePayslip payrollRunId month year workingDays emp (aggregateAttendance [])).overtimePay = 0 ∧
     (makePayslip payrollRunId month year workingDays emp (aggregateAttendance [])).grossSalary
       = emp.grossSalary) := by
  have hsum : (aggregateAttendance recs1).overtimeHours
      = (aggregateAttendance recs2).overtimeHours := by
    simp only [aggregateAttendance]
    exact congrArg List.sum hot
  refine ⟨⟨?_, ?_, ?_, ?_, ?_, ?_⟩, ?_, ?_⟩ <;>
    simp [makePayslip, aggregateAttendance, hsum, hot]

/-- The worker and attendance fixtures for the C10 witness: the two record
lists agree on overtime hours but disagree on every status. -/
def empC10 : EmployeeRow := ⟨5, "non_filer", 80000, 0, 0⟩

def recsPresent : List AttendanceRecord :=
  [⟨AttStatus.present, some 2⟩, ⟨AttStatus.late, none⟩]

def recsAbsent : List AttendanceRecord :=
  [⟨AttStatus.absent, some 2⟩, ⟨AttStatus.onLeave, none⟩]

/-- Witness for C10 at a concrete pair of attendance lists. -/
theorem C10_witness :
    0 < 22 ∧
    recsPresent.map (fun r => r.overtimeHours.getD 0)
      = recsAbsent.map (fun r => r.overtimeHours.getD 0) ∧
    ((makePayslip 1 6 2025 22 empC10 (aggregateAttendance recsPresent)).grossSalary
       = (makePayslip 1 6 2025 22 empC10 (aggregateAttendance recsAbsent)).grossSalary ∧
     (makePayslip 1 6 2025 22 empC10 (aggregateAttendance recsPresent)).incomeTax
       = (makePayslip 1 6 2025 22 empC10 (aggregateAttendance recsAbsent)).incomeTax ∧
     (makePayslip 1 6 2025 22 empC10 (aggregateAttendance recsPresent)).eobiContribution
       = (makePayslip 1 6 2025 22 empC10 (aggregateAttendance recsAbsent)).eobiContribution ∧
     (makePayslip 1 6 2025 22 empC10 (aggregateAttendance recsPresent)).totalDeductions
       = (makePayslip 1 6 2025 22 empC10 (aggregateAttendance recsAbsent)).totalDeductions ∧
     (makePayslip 1 6 2025 22 empC10 (aggregateAttendance recsPresent)).overtimePay
       = (makePayslip 1 6 2025 22 empC10 (aggregateAttendance recsAbsent)).overtimePay ∧
     (makePayslip 1 6 2025 22 empC10 (aggregateAttendance recsPresent)).netSalary
       = (makePayslip 1 6 2025 22 empC10 (aggregateAttendance recsAbsent)).netSalary) ∧
    ((makePayslip 1 6 2025 22 empC10 (aggregateAttendance [])).overtimePay = 0 ∧
     (makePayslip 1 6 2025 22 empC10 (aggregateAttendance [])).grossSalary
       = empC10.grossSalary) := by
  have hot : recsPresent.map (fun r => r.overtimeHours.getD 0)
      = recsAbsent.map (fun r => r.overtimeHours.getD 0) := by
    simp [recsPresent, recsAbsent]
  have h := C10_attendance_independent 1 6 2025 22 (by norm_num) empC10
    recsPresent recsAbsent hot
  exact ⟨by norm_num, hot, h.1, h.2⟩

/-! ## Claim C4 -/

/-- Claim C4: `process()` is atomic — whenever the transaction body fails
at any step (missing run, state guard, or any write statement aborting),
the caller observes exactly the pre-call state paired with the propagated
error: run status, totals and the payslip set are all as before the call,
and no partial payslip set is persisted. -/
theorem C4_rollback (env : Env) (oracle : ℕ → Bool) (st : DBState)
    (payrollRunId processedBy : ℕ) (e : DbErr)
    (h : processTx env oracle st payrollRunId processedBy = Except.error e) :
    processPayroll env oracle st payrollRunId processedBy = (st, some e) := by
  simp [processPayroll, h]

/-- Fixtures: a draft run with id 1, two active employees, and a store
holding only that run. -/
def run1 : PayrollRun :=
  ⟨1, 6, 2025, RunStatus.draft, 0, 0, 0, 0, 0, none, none⟩

def empA : EmployeeRow := ⟨10, "filer", 50000, 0, 0⟩

def empB : EmployeeRow := ⟨11, "non_filer", 30000, 500, 0⟩

def envTwo : Env :=
  { employees := [empA, empB]
    attendance := fun _ _ _ => []
    workingDaysOf := fun _ _ => 22 }

def stDraft : DBState := ⟨fun i => if i = 1 then some run1 else none, []⟩

/-- The fault oracle that aborts write number 3 — the second payslip
insert, i.e. a failure in the middle of the per-worker loop. -/
def failSecondInsert : ℕ → Bool := fun k => decide (k = 3)

/-- Witness for C4: with the mid-loop fault injected, the transaction
aborts and the caller gets back the untouched pre-call state plus the
error. -/
theorem C4_witness :
    processTx envTwo failSecondInsert stDraft 1 7 = Except.error DbErr.dbFailure ∧
    processPayroll envTwo failSecondInsert stDraft 1 7 = (stDraft, some DbErr.dbFailure) := by
  have h : processTx envTwo failSecondInsert stDraft 1 7 = Except.error DbErr.dbFailure := rfl
  exact ⟨h, C4_rollback envTwo failSecondInsert stDraft 1 7 DbErr.dbFailure h⟩

/-! ## Claim C5 -/

/-- Claim C5: the run state machine guards — `process()` fails with the
invalid-state error and leaves the store untouched on every non-draft run,
and succeeds only from `draft`; `approve()` fails likewise on every
non-completed run, and from `completed` it sets the run to `approved` and
cascades every payslip of that run to `approved`. -/
theorem C5_state_machine_guards :
    (∀ (env : Env) (oracle : ℕ → Bool) (st : DBState) (payrollRunId processedBy : ℕ)
        (run : PayrollRun), st.runs payrollRunId = some run →
        run.status ≠ RunStatus.draft →
        processPayroll env oracle st payrollRunId processedBy
          = (st, some (DbErr.badRequest "Only draft payroll runs can be processed"))) ∧
    (∀ (env : Env) (oracle : ℕ → Bool) (st : DBState) (payrollRunId processedBy : ℕ),
        (processPayroll env oracle st payrollRunId processedBy).2 = none →
        ∃ run, st.runs payrollRunId = some run ∧ run.status = RunStatus.draft) ∧
    (∀ (st : DBState) (payrollRunId approvedBy : ℕ) (run : PayrollRun),
        st.runs payrollRunId = some run → run.status ≠ RunStatus.completed →
        approvePayroll st payrollRunId approvedBy
          = (st, some (DbErr.badRequest "Only completed payroll runs can be approved"))) ∧
    (∀ (st : DBState) (payrollRunId approvedBy : ℕ) (run : PayrollRun),
        st.runs payrollRunId = some run → run.status = RunStatus.completed →
        (approvePayroll st payrollRunId approvedBy).2 = none ∧
        (approvePayroll st payrollRunId approvedBy).1.runs payrollRunId
          = some { run with status := RunStatus.approved, approvedBy := some approvedBy } ∧
        (approvePayroll st payrollRunId approvedBy).1.payslips
          = st.payslips.map (fun p =>
              if p.payrollRunId = payrollRunId
              then { p with status := PayslipStatus.approved } else p)) := by
  refine ⟨?_, ?_, ?_, ?_⟩
  · intro env oracle st payrollRunId processedBy run hfind hst
    simp [processPayroll, processTx, hfind, hst]
  · intro env oracle st payrollRunId processedBy hsucc
    rcases hr : st.runs payrollRunId with _ | run
    · simp [processPayroll, processTx, hr] at hsucc
    · by_cases hs : run.status = RunStatus.draft
      · exact ⟨run, rfl, hs⟩
      · simp [processPayroll, processTx, hr, hs] at hsucc
  · intro st payrollRunId approvedBy run hfind hst
    simp [approvePayroll, hfind, hst]
  · intro st payrollRunId approvedBy run hfind hst
    refine ⟨?_, ?_, ?_⟩ <;> simp [approvePayroll, hfind, hst, setRun]

/-- Further fixtures for the C5 witness: the same run in `completed` and in
`approved` state. -/
def run1completed : PayrollRun :=
  ⟨1, 6, 2025, RunStatus.completed, 0, 0, 0, 0, 0, none, none⟩

def run1approved : PayrollRun :=
  ⟨1, 6, 2025, RunStatus.approved, 0, 0, 0, 0, 0, none, none⟩

def stCompleted : DBState := ⟨fun i => if i = 1 then some run1completed else none, []⟩

def stApproved : DBState := ⟨fun i => if i = 1 then some run1approved else none, []⟩

/-- Witness for C5: `process()` on an approved run fails, `approve()` on a
draft run fails, and `approve()` on a completed run approves the run and
its payslips. -/
theorem C5_witness :
    processPayroll envTwo noFault stApproved 1 7
      = (stApproved, some (DbErr.badRequest "Only draft payroll runs can be processed")) ∧
    approvePayroll stDraft 1 7
      = (stDraft, some (DbErr.badRequest "Only completed payroll runs can be approved")) ∧
    ((approvePayroll stCompleted 1 7).2 = none ∧
     (approvePayroll stCompleted 1 7).1.runs 1
       = some { run1completed with status := RunStatus.approved, approvedBy := some 7 } ∧
     (approvePayroll stCompleted 1 7).1.payslips
       = stCompleted.payslips.map (fun p =>
           if p.payrollRunId = 1 then { p with status := PayslipStatus.approved } else p)) := by
  refine ⟨?_, ?_, ?_⟩
  · exact C5_state_machine_guards.1 envTwo noFault stApproved 1 7 run1approved rfl
      (by decide)
  · exact C5_state_machine_guards.2.2.1 stDraft 1 7 run1 rfl (by decide)
  · exact C5_state_machine_guards.2.2.2 stCompleted 1 7 run1completed rfl rfl

/-! ## Claim C3 -/

/-- The payslip list a successful `process()` generates for a run: one row
per employee of the active-employee query, in query order. -/
def generatedPayslips (env : Env) (payrollRunId month year : ℕ) : List Payslip :=
  env.employees.map
    (genPayslip env payrollRunId month year (env.workingDaysOf month year))

/-- The run row written by the final totals update of a successful
`process()`. -/
def completedRunRow (env : Env) (payrollRunId processedBy : ℕ)
    (run : PayrollRun) : PayrollRun :=
  let newPayslips := generatedPayslips env payrollRunId run.month run.year
  { run with
      status := RunStatus.completed
      totalEmployees := env.employees.length
      totalGrossSalary := (newPayslips.map Payslip.grossSalary).sum
      totalDeductions := (newPayslips.map Payslip.totalDeductions).sum
      totalTax := (newPayslips.map Payslip.incomeTax).sum
      totalNetSalary := (newPayslips.map Payslip.netSalary).sum
      processedBy := some processedBy }

theorem insertPayslips_noFault (env : Env) (payrollRunId month year workingDays : ℕ) :
    ∀ (l : List EmployeeRow) (k : ℕ),
      insertPayslips env noFault payrollRunId month year workingDays l k
        = Except.ok (l.map (genPayslip env payrollRunId month year workingDays)) := by
  intro l
  induction l with
  | nil => intro k; simp [insertPayslips]
  | cons a t ih => intro k; simp [insertPayslips, noFault, ih]

/-- A successful fault-free `process()` from a draft run commits exactly:
the run row replaced by its completed version with totals, the run's old
payslips deleted, and one fresh payslip per employee appended. -/
theorem processPayroll_noFault_spec (env : Env) (st : DBState)
    (payrollRunId processedBy : ℕ) (run : PayrollRun)
    (hfind : st.runs payrollRunId = some run) (hdraft : run.status = RunStatus.draft) :
    processPayroll env noFault st payrollRunId processedBy =
      ({ runs := fun i => if i = payrollRunId
            then some (completedRunRow env payrollRunId processedBy run)
            else st.runs i
         payslips := st.payslips.filter (fun p => decide (p.payrollRunId ≠ payrollRunId))
             ++ generatedPayslips env payrollRunId run.month run.year }, none) := by
  have hins := insertPayslips_noFault env payrollRunId run.month run.year
      (env.workingDaysOf run.month run.year) env.employees 2
  simp only [processPayroll, processTx, hfind, hdraft, noFault, hins, setRun,
    Bool.false_eq_true, if_false, if_true, ite_true, ite_false, reduceCtorEq]
  simp only [Prod.mk.injEq, DBState.mk.injEq, and_true]
  constructor
  · funext i
    by_cases hi : i = payrollRunId <;>
      simp [hi, completedRunRow, generatedPayslips]
  · simp [generatedPayslips]

theorem genPayslip_payrollRunId (env : Env) (payrollRunId month year workingDays : ℕ)
    (emp : EmployeeRow) :
    (genPayslip env payrollRunId month year workingDays emp).payrollRunId = payrollRunId :=
  rfl

theorem generatedPayslips_filter_eq (env : Env) (payrollRunId month year : ℕ) :
    (generatedPayslips env payrollRunId month year).filter
        (fun p => decide (p.payrollRunId = payrollRunId))
      = generatedPayslips env payrollRunId month year := by
  refine List.filter_eq_self.mpr ?_
  intro p hp
  simp only [generatedPayslips, List.mem_map] at hp
  obtain ⟨e, _, rfl⟩ := hp
  simp [genPayslip_payrollRunId]

theorem generatedPayslips_filter_ne (env : Env) (payrollRunId month year : ℕ) :
    (generatedPayslips env payrollRunId month year).filter
        (fun p => decide (p.payrollRunId ≠ payrollRunId)) = [] := by
  refine List.filter_eq_nil_iff.mpr ?_
  intro p hp
  simp only [generatedPayslips, List.mem_map] at hp
  obtain ⟨e, _, rfl⟩ := hp
  simp [genPayslip_payrollRunId]

theorem generatedPayslips_map_employeeId (env : Env) (payrollRunId month year : ℕ) :
    (generatedPayslips env payrollRunId month year).map Payslip.employeeId
      = env.employees.map EmployeeRow.employeeId := by
  rw [generatedPayslips, List.map_map]
  rfl

/-- Claim C3: reprocessing is idempotent — starting from a draft run, a
fault-free `process()`, a manual reset to draft, and a second fault-free
`process()` on the same attendance/salary data yield exactly the payslip
list of the first call; that list is precisely the freshly generated one
(so no stale row survives the delete-then-regenerate step), and distinct
workers give at most one payslip per (run, worker) pair. -/
theorem C3_reprocessing_idempotent (env : Env) (st : DBState)
    (payrollRunId uid1 uid2 : ℕ) (run : PayrollRun)
    (hfind : st.runs payrollRunId = some run)
    (hdraft : run.status = RunStatus.draft)
    (hnodup : (env.employees.map EmployeeRow.employeeId).Nodup) :
    (processPayroll env noFault st payrollRunId uid1).2 = none ∧
    (processPayroll env noFault
        (resetRunToDraft (processPayroll env noFault st payrollRunId uid1).1 payrollRunId)
        payrollRunId uid2).2 = none ∧
    payslipsFor (processPayroll env noFault
        (resetRunToDraft (processPayroll env noFault st payrollRunId uid1).1 payrollRunId)
        payrollRunId uid2).1 payrollRunId
      = payslipsFor (processPayroll env noFault st payrollRunId uid1).1 payrollRunId ∧
    payslipsFor (processPayroll env noFault
        (resetRunToDraft (processPayroll env noFault st payrollRunId uid1).1 payrollRunId)
        payrollRunId uid2).1 payrollRunId
      = generatedPayslips env payrollRunId run.month run.year ∧
    ((payslipsFor (processPayroll env noFault
        (resetRunToDraft (processPayroll env noFault st payrollRunId uid1).1 payrollRunId)
        payrollRunId uid2).1 payrollRunId).map Payslip.employeeId).Nodup := by
  have h1 := processPayroll_noFault_spec env st payrollRunId uid1 run hfind hdraft
  have hFmem : ∀ p ∈ st.payslips.filter (fun p => decide (p.payrollRunId ≠ payrollRunId)),
      decide (p.payrollRunId ≠ payrollRunId) = true :=
    fun p hp => (List.mem_filter.mp hp).2
  have hF_idem : (st.payslips.filter (fun p => decide (p.payrollRunId ≠ payrollRunId))).filter
        (fun p => decide (p.payrollRunId ≠ payrollRunId))
      = st.payslips.filter (fun p => decide (p.payrollRunId ≠ payrollRunId)) :=
    List.filter_eq_self.mpr hFmem
  have hF_nil : (st.payslips.filter (fun p => decide (p.payrollRunId ≠ payrollRunId))).filter
        (fun p => decide (p.payrollRunId = payrollRunId)) = [] := by
    refine List.filter_eq_nil_iff.mpr ?_
    intro p hp
    have h := hFmem p hp
    simp only [decide_eq_true_eq] at h
    simp only [decide_eq_true_eq]
    exact h
  have hfind2 : (resetRunToDraft (processPayroll env noFault st payrollRunId uid1).1
        payrollRunId).runs payrollRunId
      = some { completedRunRow env payrollRunId uid1 run with status := RunStatus.draft } := by
    rw [h1]
    simp [resetRunToDraft]
  have h2 := processPayroll_noFault_spec env
      (resetRunToDraft (processPayroll env noFault st payrollRunId uid1).1 payrollRunId)
      payrollRunId uid2
      { completedRunRow env payrollRunId uid1 run with status := RunStatus.draft }
      hfind2 rfl
  have hXps : (resetRunToDraft (processPayroll env noFault st payrollRunId uid1).1
        payrollRunId).payslips
      = st.payslips.filter (fun p => decide (p.payrollRunId ≠ payrollRunId))
        ++ generatedPayslips env payrollRunId run.month run.year := by
    rw [h1]
    rfl
  have hmain1 : payslipsFor (processPayroll env noFault st payrollRunId uid1).1 payrollRunId
      = generatedPayslips env payrollRunId run.month run.year := by
    rw [payslipsFor, h1]
    dsimp only
    rw [List.filter_append, hF_nil, generatedPayslips_filter_eq, List.nil_append]
  have hdel : (st.payslips.filter (fun p => decide (p.payrollRunId ≠ payrollRunId))
        ++ generatedPayslips env payrollRunId run.month run.year).filter
          (fun p => decide (p.payrollRunId ≠ payrollRunId))
      = st.payslips.filter (fun p => decide (p.payrollRunId ≠ payrollRunId)) := by
    rw [List.filter_append, hF_idem, generatedPayslips_filter_ne, List.append_nil]
  have hG2 : generatedPayslips env payrollRunId
        (completedRunRow env payrollRunId uid1 run).month
        (completedRunRow env payrollRunId uid1 run).year
      = generatedPayslips env payrollRunId run.month run.year := rfl
  have hmain2 : payslipsFor (processPayroll env noFault
        (resetRunToDraft (processPayroll env noFault st payrollRunId uid1).1 payrollRunId)
        payrollRunId uid2).1 payrollRunId
      = generatedPayslips env payrollRunId run.month run.year := by
    rw [payslipsFor, h2]
    dsimp only
    rw [hXps, hdel, hG2, List.filter_append, hF_nil, generatedPayslips_filter_eq,
      List.nil_append]
  refine ⟨by rw [h1], by rw [h2], ?_, hmain2, ?_⟩
  · rw [hmain1, hmain2]
  · rw [hmain2, generatedPayslips_map_employeeId]
    exact hnodup

/-- Witness for C3 on the two-employee fixture store. -/
theorem C3_witness :
    stDraft.runs 1 = some run1 ∧
    run1.status = RunStatus.draft ∧
    ((processPayroll envTwo noFault stDraft 1 7).2 = none ∧
     (processPayroll envTwo noFault
         (resetRunToDraft (processPayroll envTwo noFault stDraft 1 7).1 1) 1 8).2 = none ∧
     payslipsFor (processPayroll envTwo noFault
         (resetRunToDraft (processPayroll envTwo noFault stDraft 1 7).1 1) 1 8).1 1
       = payslipsFor (processPayroll envTwo noFault stDraft 1 7).1 1 ∧
     payslipsFor (processPayroll envTwo noFault
         (resetRunToDraft (processPayroll envTwo noFault stDraft 1 7).1 1) 1 8).1 1
       = generatedPayslips envTwo 1 run1.month run1.year ∧
     ((payslipsFor (processPayroll envTwo noFault
         (resetRunToDraft (processPayroll envTwo noFault stDraft 1 7).1 1) 1 8).1 1).map
           Payslip.employeeId).Nodup) :=
  ⟨rfl, rfl,
   C3_reprocessing_idempotent envTwo stDraft 1 7 8 run1 rfl rfl
     (by simp [envTwo, empA, empB])⟩

end Payroll
